import Mathlib

/-!
Shallow embedding of the IdentifAI capture-and-ingest pipeline.

Source files embedded here:
* `src/web_app/app.py` — the Flask web service: the `/pi_capture` ingest
  endpoint (`pi_capture`), the activity feed (`log_activity`,
  `_load_activities`, `_compute_time_ago`, `/activity_log`);
* `src/web_app/config.py` — `MAX_ACTIVITY_ENTRIES`;
* `src/web_app/database.py` — `log_face_event` (one row appended per call);
* `src/raspberry_pi/capture.py` — the capture loop (`main`) and
  `send_to_backend`;
* `src/raspberry_pi/cv_model.py` — `init_face_detector`, `detect_faces`,
  `has_faces`, `get_face_count`.

Modelling conventions: machine/file-system effects are explicit state
passing on a `World` record; Python exceptions are modelled with `Except`
(library calls that may raise) or with boolean failure-injection flags
(disk or database write failures); Python's `int(...)` is `pyInt`;
Python truthiness of strings is an emptiness test.
-/

namespace IdentifAI

/-- Python builtin conversion `int(s)` for a decimal string: surrounding whitespace stripped,
optional sign, at least one digit, otherwise `ValueError` (`none`).
(Underscore digit grouping, accepted by CPython, is not modelled; no claim
touches it.) -/
def pyInt (s : String) : Option Int :=
  let t := ((s.data.dropWhile Char.isWhitespace).reverse.dropWhile
    Char.isWhitespace).reverse
  let core := match t with
    | '-' :: rest => rest
    | '+' :: rest => rest
    | _ => t
  let isNeg := match t with
    | '-' :: _ => true
    | _ => false
  if core ≠ [] ∧ core.all (fun c => c.isDigit) then
    let n : Nat := core.foldl (fun acc c => acc * 10 + (c.toNat - 48)) 0
    some (if isNeg then -(n : Int) else (n : Int))
  else none

/-- One part of a multipart upload: `werkzeug` gives it a filename and a
byte content (bytes are modelled as `List Nat`). -/
structure FilePart where
  filename : String
  content : List Nat
deriving DecidableEq, Repr

/-- The form and file fields of a `POST /pi_capture` request, as read by
`request.form.get` / `request.files` in `app.py`.  `none` models an absent
field. -/
structure PiRequest where
  timestamp : Option String
  source : Option String
  faces_detected : Option String
  face_count : Option String
  file : Option FilePart
deriving DecidableEq, Repr

/-- One row of the `face_events` table (`database.py`, `init_db`);
`log_face_event` always inserts with `processed = FALSE`. -/
structure FaceEvent where
  timestamp : Option String
  image_path : String
  faces_detected : Bool
  face_count : Int
  source : String
  processed : Bool
deriving DecidableEq, Repr

/-- One entry of the activity-feed JSON list (`log_activity` in `app.py`).
An absent or empty `timestamp` key is modelled by `""` (both are falsy in
Python, which is the only test the code applies). -/
structure ActivityEntry where
  type : String
  description : String
  timestamp : String
  image : Option String
deriving DecidableEq, Repr

/-- The persistent state the ingest endpoint touches: the stored image
files under the images root, the `face_events` table (insertion order,
oldest first), and the activity-feed backing file (newest first). -/
structure World where
  files : List (String × List Nat)
  events : List FaceEvent
  feed : List ActivityEntry
deriving DecidableEq, Repr

/-- Failure injection for the three fallible effects of a request:
`file.save` raising, the SQLite insert raising, and the activity-feed
file write raising. -/
structure EffectFlags where
  saveFails : Bool
  insertFails : Bool
  feedWriteFails : Bool
deriving DecidableEq, Repr

/-- Request-scoped environment of `pi_capture`: `fileTs` is
`datetime.utcnow().strftime('%Y-%m-%dT%H-%M-%S-%fZ')` (its characters are
alphanumerics, `-`, `T`, `Z`, all kept by `secure_filename`, so
`secure_filename` is the identity on the generated name), `nowIso` is the
`datetime.utcnow().isoformat() + 'Z'` stamp `log_activity` writes. -/
structure IngestEnv where
  fileTs : String
  nowIso : String
  eff : EffectFlags
deriving DecidableEq, Repr

/-- Hard-coded feed truncation bound of `app.py` (lines 86, 89, 129),
equal to `config.MAX_ACTIVITY_ENTRIES`. -/
def MAX_ACTIVITY_ENTRIES : Nat := 100

/-- The in-memory part of `log_activity` (`app.py` 117-133): load the
feed (`_load_activities` truncates to 100), insert the entry at index 0,
truncate to 100. -/
def feed_append (entry : ActivityEntry) (feed : List ActivityEntry) :
    List ActivityEntry :=
  (entry :: feed.take 100).take 100

/-- Embeds `log_activity(activity_type, description, image=None)` (`app.py`
117-133).  The `image` key is only set when `image` is truthy; the whole
read-modify-write is inside `try/except`, so a failing write leaves the
feed file unchanged and raises nothing. -/
def log_activity (atype description : String) (image : Option String)
    (nowIso : String) (writeFails : Bool) (feed : List ActivityEntry) :
    List ActivityEntry :=
  let img := match image with
    | some s => if s = "" then none else some s
    | none => none
  let entry : ActivityEntry :=
    { type := atype, description := description, timestamp := nowIso,
      image := img }
  if writeFails then feed else feed_append entry feed

/-- Python `str.lower()` (ASCII case folding suffices for every string
this system compares). -/
def pyLower (s : String) : String :=
  ⟨s.data.map Char.toLower⟩

/-- Embeds `app.py` line 297: `request.form.get('faces_detected',
'false').lower() == 'true'`. -/
def parseFacesDetected (v : Option String) : Bool :=
  pyLower (v.getD "false") == "true"

/-- The `/pi_capture` handler (`app.py` 290-332) as a state transformer:
returns the HTTP status and the new world.  Control flow of the source,
in order: read form fields (the `int(...)` coercion of `face_count` can
raise, reaching the outer `except` → 500 with no state change); reject a
missing file part or an empty filename with 400; save the file under
`pi_capture_<ts>.jpg` (a failing save → 500, nothing stored); insert one
`face_events` row (a failing insert → 500, the saved file stays); call
`log_activity` (which swallows its own failures); return 201. -/
def pi_capture (req : PiRequest) (env : IngestEnv) (w : World) :
    Nat × World :=
  let source := req.source.getD "raspberry_pi"
  let faces_detected := parseFacesDetected req.faces_detected
  match pyInt (req.face_count.getD "0") with
  | none => (500, w)
  | some face_count =>
    match req.file with
    | none => (400, w)
    | some f =>
      if f.filename = "" then (400, w)
      else
        let filename := "pi_capture_" ++ env.fileTs ++ ".jpg"
        if env.eff.saveFails then (500, w)
        else
          let w₁ : World := { w with files := w.files ++ [(filename, f.content)] }
          let image_path := "images/" ++ filename
          if env.eff.insertFails then (500, w₁)
          else
            let ev : FaceEvent :=
              { timestamp := req.timestamp, image_path := image_path,
                faces_detected := faces_detected, face_count := face_count,
                source := source, processed := false }
            let w₂ : World := { w₁ with events := w₁.events ++ [ev] }
            let feed₃ : List ActivityEntry :=
              if faces_detected then
                log_activity "face_detected"
                  ("Face detected: " ++ toString face_count ++ " faces in image")
                  (some image_path) env.nowIso env.eff.feedWriteFails w₂.feed
              else
                log_activity "image_captured"
                  ("Image captured from " ++ source)
                  (some image_path) env.nowIso env.eff.feedWriteFails w₂.feed
            (201, { w₂ with feed := feed₃ })

/-! Face detector: `src/raspberry_pi/cv_model.py`. -/

/-- An opaque decoded image (what `cv2.imread` returns when it succeeds). -/
structure Image where
  data : List Nat
deriving DecidableEq, Repr

/-- An opaque loaded cascade classifier. -/
structure Cascade where
  id : Nat
deriving DecidableEq, Repr

/-- The parameters `detect_faces` hands to `detectMultiScale`
(`cv_model.py` 121-126).  The scale factor is an exact rational standing
for the Python float literal. -/
structure DetectParams where
  scaleFactor : ℚ
  minNeighbors : Nat
  minSize : Nat × Nat
deriving DecidableEq, Repr

/-- Environment of the detector: the outcome of the module's cascade
lookup (`none` models "no cascade path loads", in which case
`init_face_detector` raises `FileNotFoundError`), `cv2.imread` (`none`
models an unreadable image), `cv2.cvtColor`, and `detectMultiScale`
(`Except.error` models the library call raising). -/
structure CVEnv where
  cascade : Option Cascade
  readImage : String → Option Image
  toGray : Image → Image
  detectMS : Cascade → Image → DetectParams → Except String (List (Int × Int × Int × Int))

/-- Embeds `init_face_detector` (`cv_model.py` 61-93): returns the loaded
classifier, or raises `FileNotFoundError` when no candidate path (nor the
download fallback) yields a non-empty classifier. -/
def init_face_detector (env : CVEnv) : Except String Cascade :=
  match env.cascade with
  | some c => .ok c
  | none => .error "FileNotFoundError: Could not find or load Haar cascade file"

/-- The body of the `try` block of `detect_faces` (`cv_model.py`
107-131): initialize the detector (may raise), read the image (`None` →
return `[]` normally), convert to grayscale, run `detectMultiScale` (may
raise), convert the regions to `int` tuples (identity here: the model's
regions are already integer tuples). -/
def detectFacesBody (env : CVEnv) (image_path : String)
    (scale_factor : ℚ) (min_neighbors : Nat) :
    Except String (List (Int × Int × Int × Int)) :=
  match init_face_detector env with
  | .error e => .error e
  | .ok cascade =>
    match env.readImage image_path with
    | none => .ok []
    | some image =>
      let gray := env.toGray image
      env.detectMS cascade gray
        { scaleFactor := scale_factor, minNeighbors := min_neighbors,
          minSize := (30, 30) }

/-- Embeds `detect_faces` (`cv_model.py` 95-135): the whole body runs inside
`try/except` — any exception becomes a `[]` result, so the function is
total and never raises to its caller. -/
def detect_faces (env : CVEnv) (image_path : String)
    (scale_factor : ℚ) (min_neighbors : Nat) :
    List (Int × Int × Int × Int) :=
  match detectFacesBody env image_path scale_factor min_neighbors with
  | .ok faces => faces
  | .error _ => []

/-- Default `scale_factor = 1.1` of the Python signature. -/
def defaultScaleFactor : ℚ := 11 / 10

/-- Default `min_neighbors = 5` of the Python signature. -/
def defaultMinNeighbors : Nat := 5

/-- Embeds `has_faces` (`cv_model.py` 137-148): `len(detect_faces(p)) > 0`,
with the defaults. -/
def has_faces (env : CVEnv) (image_path : String) : Bool :=
  decide (0 < (detect_faces env image_path defaultScaleFactor defaultMinNeighbors).length)

/-- Embeds `get_face_count` (`cv_model.py` 150-161): `len(detect_faces(p))`,
with the defaults. -/
def get_face_count (env : CVEnv) (image_path : String) : Nat :=
  (detect_faces env image_path defaultScaleFactor defaultMinNeighbors).length

/-! Capture client: `src/raspberry_pi/capture.py`. -/

/-- The form-and-file payload `send_to_backend` (`capture.py` 94-120)
posts to `/pi_capture`: face detection first (`face_count` forced to `0`
when `has_faces` is false), then the multipart body with the stringified
fields.  `ts` is `get_iso_timestamp()`, `content` the bytes of the image
file. -/
def buildPiRequest (env : CVEnv) (image_path : String) (ts : String)
    (content : List Nat) : PiRequest :=
  let faces_detected := has_faces env image_path
  let face_count : Nat := if faces_detected then get_face_count env image_path else 0
  { timestamp := some ts,
    source := some "raspberry_pi",
    faces_detected := some (if faces_detected then "true" else "false"),
    face_count := some (toString face_count),
    file := some { filename := image_path, content := content } }

/-- One iteration of the `main` loop (`capture.py` 176-185), abstracted
over what the environment does in that cycle: `captured` is the result of
`capture_image` (`none` when the capture failed and was logged), `sendOk`
is what `send_to_backend` would return for that frame (it catches all of
its own exceptions and returns a boolean). -/
structure Cycle where
  captured : Option String
  sendOk : Bool
deriving DecidableEq, Repr

/-- The send attempts one loop iteration makes: `if image_path:
send_to_backend(image_path)` — exactly one attempt when `capture_image`
returned a (truthy, i.e. non-empty) filename, none otherwise; the boolean
result of the send is discarded by the loop. -/
def cycleSends (c : Cycle) : List (String × Bool) :=
  match c.captured with
  | none => []
  | some p => if p = "" then [] else [(p, c.sendOk)]

/-- The capture loop run over a finite schedule of cycles, collecting
every send attempt in order.  There is no other control flow between
iterations (the loop body ends in `time.sleep` and continues). -/
def runLoop : List Cycle → List (String × Bool)
  | [] => []
  | c :: cs => cycleSends c ++ runLoop cs

/-! Activity feed reads: `src/web_app/app.py`. -/

/-- The JSON content of the activity-log backing file, as
`_load_activities` discriminates it: a bare list (legacy), an object
whose `activities` key may be absent, or any other JSON value. -/
inductive StoredJson where
  | arr (l : List ActivityEntry)
  | obj (activities : Option (List ActivityEntry))
  | other
deriving DecidableEq, Repr

/-- Embeds `_load_activities` (`app.py` 78-92): missing file or any exception →
`[]`; a bare list → its first 100 entries; a dict → the first 100 entries
of its `activities` key (default `[]`); anything else → `[]`.  `none`
models a missing or unreadable file. -/
def load_activities : Option StoredJson → List ActivityEntry
  | none => []
  | some (.arr l) => l.take 100
  | some (.obj (some l)) => l.take 100
  | some (.obj none) => []
  | some .other => []

/-- Embeds `_compute_time_ago` (`app.py` 95-114) after the timestamp has been
parsed to epoch seconds (`none` models `datetime.fromisoformat` raising,
which the function turns into `""`).  `now` is the current epoch second;
negative deltas clamp to `0`. -/
def compute_time_ago (parsed : Option Int) (now : Int) : String :=
  match parsed with
  | none => ""
  | some t =>
    let secs : Nat := (now - t).toNat
    if secs < 60 then s!"{secs}s ago"
    else
      let mins := secs / 60
      if mins < 60 then s!"{mins}m ago"
      else
        let hours := mins / 60
        if hours < 24 then s!"{hours}h ago"
        else
          let days := hours / 24
          s!"{days}d ago"

/-- One element of the `/activity_log` response: the entry's fields plus
the derived `time_ago`, with `timestamp` defaulted when absent. -/
structure EnrichedEntry where
  type : String
  description : String
  timestamp : String
  time_ago : String
  image : Option String
deriving DecidableEq, Repr

/-- Read-time environment of `/activity_log`: the clock as epoch seconds
(for `_compute_time_ago`), the clock as the ISO string
`datetime.utcnow().isoformat() + 'Z'` (substituted for a falsy
timestamp), and the ISO-8601 parser `datetime.fromisoformat` (with the
`Z` → `+00:00` rewrite), abstracted as a partial map to epoch seconds.
A faithful instantiation of `parseTs` must return the string's actual
epoch value on a well-formed ISO-8601 timestamp and `none` exactly where
the library call would raise. -/
structure ReadEnv where
  nowSec : Int
  nowStr : String
  parseTs : String → Option Int

/-- The per-entry enrichment of the `/activity_log` loop (`app.py`
341-345): default a falsy timestamp to the current ISO string, attach
`time_ago`, keep every other field. -/
def enrich (env : ReadEnv) (act : ActivityEntry) : EnrichedEntry :=
  let ts := if act.timestamp = "" then env.nowStr else act.timestamp
  { type := act.type, description := act.description, timestamp := ts,
    time_ago := compute_time_ago (env.parseTs ts) env.nowSec,
    image := act.image }

/-- The `/activity_log` handler (`app.py` 335-352): load the feed
(`_load_activities`), enrich the first 50 entries in order. -/
def activity_log_read (stored : Option StoredJson) (env : ReadEnv) :
    List EnrichedEntry :=
  ((load_activities stored).take 50).map (enrich env)

/-- The fields of a response entry other than the derived `time_ago`. -/
def stripTimeAgo (e : EnrichedEntry) : String × String × String × Option String :=
  (e.type, e.description, e.timestamp, e.image)

/-- Repeated `log_activity` appends (the in-memory part), folded over the
entries in the order they are appended. -/
def append_all (es : List ActivityEntry) (feed : List ActivityEntry) :
    List ActivityEntry :=
  es.foldl (fun acc e => feed_append e acc) feed

/-! Helper lemmas (shared; not tied to a single claim). -/

/-- One `feed_append` is exactly cons-then-truncate. -/
theorem feed_append_eq (e : ActivityEntry) (l : List ActivityEntry) :
    feed_append e l = (e :: l).take 100 := by
  show (e :: l.take 100).take 100 = (e :: l).take 100
  have h1 : (e :: l.take 100).take 100 = e :: (l.take 100).take 99 := rfl
  have h2 : (e :: l).take 100 = e :: l.take 99 := rfl
  rw [h1, h2, List.take_take]
  norm_num

/-- Truncating the tail before appending does not change a 100-truncated
concatenation. -/
theorem take_append_take (a b : List ActivityEntry) :
    (a ++ b.take 100).take 100 = (a ++ b).take 100 := by
  rw [List.take_append_eq_append_take, List.take_append_eq_append_take,
    List.take_take]
  have : min (100 - a.length) 100 = 100 - a.length :=
    Nat.min_eq_left (Nat.sub_le 100 a.length)
  rw [this]

/-- A non-empty sequence of appends is cons-all-then-truncate. -/
theorem append_all_eq (es : List ActivityEntry) (l : List ActivityEntry)
    (h : es ≠ []) :
    append_all es l = (es.reverse ++ l).take 100 := by
  induction es generalizing l with
  | nil => exact absurd rfl h
  | cons e es ih =>
    show append_all es (feed_append e l) = ((e :: es).reverse ++ l).take 100
    by_cases hes : es = []
    · subst hes
      show feed_append e l = (([] : List ActivityEntry) ++ [e] ++ l).take 100
      rw [feed_append_eq]
      simp
    · rw [ih _ hes, feed_append_eq]
      rw [List.reverse_cons, List.append_assoc]
      exact take_append_take es.reverse (e :: l)

/-! Claim theorems. -/

/-- C8: reading the activity-log backing file accepts both the bare-list
shape and the wrapped-object shape, and yields the same entries (the
first at most 100) from either. -/
theorem load_activities_shape_tolerant (l : List ActivityEntry) :
    load_activities (some (.arr l)) = l.take 100
    ∧ load_activities (some (.obj (some l))) = l.take 100
    ∧ load_activities (some (.arr l)) = load_activities (some (.obj (some l))) :=
  ⟨rfl, rfl, rfl⟩

/-- C10: `has_faces` holds exactly when `get_face_count` is positive, and
both are the length of `detect_faces` at the default parameters. -/
theorem has_faces_iff_positive_count (env : CVEnv) (p : String) :
    (has_faces env p = true ↔ 0 < get_face_count env p)
    ∧ has_faces env p
      = decide (0 < (detect_faces env p defaultScaleFactor defaultMinNeighbors).length)
    ∧ get_face_count env p
      = (detect_faces env p defaultScaleFactor defaultMinNeighbors).length := by
  refine ⟨?_, rfl, rfl⟩
  simp [has_faces, get_face_count]

/-- C9: the recorded `faces_detected` boolean is true exactly when the
form field equals `"true"` case-insensitively; an absent field is false;
and the response status never depends on the field's value (no value is
rejected). -/
theorem faces_detected_flag_semantics (v v' : Option String)
    (req : PiRequest) (env : IngestEnv) (w : World) :
    (parseFacesDetected v = true ↔ ∃ s, v = some s ∧ pyLower s = "true")
    ∧ parseFacesDetected none = false
    ∧ (pi_capture { req with faces_detected := v } env w).1
      = (pi_capture { req with faces_detected := v' } env w).1 := by
  refine ⟨?_, by decide, ?_⟩
  · cases v with
    | none => simp [parseFacesDetected]; decide
    | some s => simp [parseFacesDetected]
  · unfold pi_capture
    cases pyInt (req.face_count.getD "0") with
    | none => rfl
    | some n =>
      cases req.file with
      | none => rfl
      | some f =>
        by_cases hf : f.filename = "" <;>
          by_cases hs : env.eff.saveFails <;>
            by_cases hi : env.eff.insertFails <;>
              simp [hf, hs, hi]

/-- C6: when the cascade cannot be found/loaded or the image cannot be
read, `detect_faces` returns the empty region list (for any parameters),
so `get_face_count` is 0 and `has_faces` is false; and any exception of
the body is caught, yielding `[]` — the function is total and never
raises to its caller. -/
theorem detect_faces_failure_yields_empty (env : CVEnv) (p : String)
    (h : env.cascade = none ∨ env.readImage p = none) :
    (∀ sf mn, detect_faces env p sf mn = [])
    ∧ get_face_count env p = 0
    ∧ has_faces env p = false
    ∧ ∀ sf mn msg, detectFacesBody env p sf mn = .error msg →
        detect_faces env p sf mn = [] := by
  have hempty : ∀ sf mn, detect_faces env p sf mn = [] := by
    intro sf mn
    rcases h with h | h
    · simp [detect_faces, detectFacesBody, init_face_detector, h]
    · cases hc : env.cascade with
      | none => simp [detect_faces, detectFacesBody, init_face_detector, hc]
      | some c =>
        simp [detect_faces, detectFacesBody, init_face_detector, hc, h]
  refine ⟨hempty, ?_, ?_, ?_⟩
  · simp [get_face_count, hempty]
  · simp [has_faces, hempty]
  · intro sf mn msg hbody
    simp [detect_faces, hbody]

/-- A concrete failing detector environment: no cascade file, no readable
image. -/
def cvEnvBroken : CVEnv :=
  { cascade := none, readImage := fun _ => none, toGray := fun i => i,
    detectMS := fun _ _ _ => .ok [] }

/-- Witness for C6 at a concrete environment and path. -/
theorem detect_faces_failure_yields_empty_witness :
    (cvEnvBroken.cascade = none ∨ cvEnvBroken.readImage "capture.jpg" = none)
    ∧ ((∀ sf mn, detect_faces cvEnvBroken "capture.jpg" sf mn = [])
       ∧ get_face_count cvEnvBroken "capture.jpg" = 0
       ∧ has_faces cvEnvBroken "capture.jpg" = false
       ∧ ∀ sf mn msg, detectFacesBody cvEnvBroken "capture.jpg" sf mn = .error msg →
           detect_faces cvEnvBroken "capture.jpg" sf mn = []) :=
  ⟨Or.inl rfl,
   detect_faces_failure_yields_empty cvEnvBroken "capture.jpg" (Or.inl rfl)⟩

/-- C5: a cycle whose capture produced a (truthy) filename makes exactly
one send attempt; the loop continues with the remaining cycles, and the
send's boolean outcome changes only the recorded result of that one
attempt, never the attempts of later cycles (no retry, no buffering). -/
theorem capture_cycle_exactly_one_send (c : Cycle) (cs : List Cycle)
    (p : String) (h1 : c.captured = some p) (h2 : p ≠ "") :
    cycleSends c = [(p, c.sendOk)]
    ∧ runLoop (c :: cs) = (p, c.sendOk) :: runLoop cs
    ∧ ∀ b, runLoop ({ captured := c.captured, sendOk := b } :: cs)
        = (p, b) :: runLoop cs := by
  have hc : cycleSends c = [(p, c.sendOk)] := by
    simp [cycleSends, h1, h2]
  refine ⟨hc, ?_, ?_⟩
  · show cycleSends c ++ runLoop cs = (p, c.sendOk) :: runLoop cs
    rw [hc]; rfl
  · intro b
    show cycleSends { captured := c.captured, sendOk := b } ++ runLoop cs
      = (p, b) :: runLoop cs
    simp [cycleSends, h1, h2]

/-- Witness for C5: a cycle with a captured frame whose send fails,
followed by one more cycle. -/
theorem capture_cycle_exactly_one_send_witness :
    ((⟨some "captured_images/capture_1.jpg", false⟩ : Cycle).captured
      = some "captured_images/capture_1.jpg")
    ∧ ("captured_images/capture_1.jpg" ≠ "")
    ∧ (cycleSends ⟨some "captured_images/capture_1.jpg", false⟩
        = [("captured_images/capture_1.jpg", false)]
       ∧ runLoop (⟨some "captured_images/capture_1.jpg", false⟩ :: [⟨none, true⟩])
          = ("captured_images/capture_1.jpg", false)
            :: runLoop [⟨none, true⟩]
       ∧ ∀ b, runLoop (({ captured := (⟨some "captured_images/capture_1.jpg", false⟩ : Cycle).captured, sendOk := b } : Cycle) :: [⟨none, true⟩])
          = ("captured_images/capture_1.jpg", b) :: runLoop [⟨none, true⟩]) :=
  ⟨rfl, by decide,
   capture_cycle_exactly_one_send ⟨some "captured_images/capture_1.jpg", false⟩
     [⟨none, true⟩] "captured_images/capture_1.jpg" rfl (by decide)⟩

/-- C4: appending inserts at the head and truncates, so any run of at
least 100 appends leaves the feed at exactly the cap, holding the 100
most recently appended entries, newest first, whatever the feed held
before. -/
theorem activity_feed_cap (es feed : List ActivityEntry)
    (h : 100 ≤ es.length) :
    (append_all es feed).length = MAX_ACTIVITY_ENTRIES
    ∧ append_all es feed = es.reverse.take 100
    ∧ MAX_ACTIVITY_ENTRIES = 100 := by
  have hne : es ≠ [] := by
    intro he; rw [he] at h; simp at h
  have h1 := append_all_eq es feed hne
  have h2 : (es.reverse ++ feed).take 100 = es.reverse.take 100 :=
    List.take_append_of_le_length (by simpa using h)
  refine ⟨?_, h1.trans h2, rfl⟩
  rw [h1, h2]
  simp [MAX_ACTIVITY_ENTRIES]
  omega

/-- A concrete activity entry for witnesses. -/
def sampleEntry : ActivityEntry :=
  { type := "image_captured",
    description := "Image captured from raspberry_pi",
    timestamp := "2025-01-01T00:00:00Z", image := none }

/-- Witness for C4: 100 identical appends onto an empty feed. -/
theorem activity_feed_cap_witness :
    100 ≤ (List.replicate 100 sampleEntry).length
    ∧ ((append_all (List.replicate 100 sampleEntry) []).length = MAX_ACTIVITY_ENTRIES
       ∧ append_all (List.replicate 100 sampleEntry) []
          = (List.replicate 100 sampleEntry).reverse.take 100
       ∧ MAX_ACTIVITY_ENTRIES = 100) :=
  ⟨by simp, activity_feed_cap (List.replicate 100 sampleEntry) [] (by simp)⟩

/-! Branch characterization of `pi_capture` (shared helper lemmas). -/

/-- The generated stored filename of a request. -/
def genFilename (env : IngestEnv) : String :=
  "pi_capture_" ++ env.fileTs ++ ".jpg"

/-- The event row a successful request inserts. -/
def genEvent (req : PiRequest) (env : IngestEnv) (face_count : Int) :
    FaceEvent :=
  { timestamp := req.timestamp,
    image_path := "images/" ++ genFilename env,
    faces_detected := parseFacesDetected req.faces_detected,
    face_count := face_count,
    source := req.source.getD "raspberry_pi",
    processed := false }

/-- The feed a successful request leaves behind. -/
def genFeed (req : PiRequest) (env : IngestEnv) (face_count : Int)
    (feed : List ActivityEntry) : List ActivityEntry :=
  if parseFacesDetected req.faces_detected then
    log_activity "face_detected"
      ("Face detected: " ++ toString face_count ++ " faces in image")
      (some ("images/" ++ genFilename env)) env.nowIso env.eff.feedWriteFails feed
  else
    log_activity "image_captured"
      ("Image captured from " ++ req.source.getD "raspberry_pi")
      (some ("images/" ++ genFilename env)) env.nowIso env.eff.feedWriteFails feed

theorem pi_capture_badInt {req : PiRequest} (env : IngestEnv) (w : World)
    (h : pyInt (req.face_count.getD "0") = none) :
    pi_capture req env w = (500, w) := by
  simp [pi_capture, h]

theorem pi_capture_noFile {req : PiRequest} (env : IngestEnv) (w : World)
    {n : Int} (hn : pyInt (req.face_count.getD "0") = some n)
    (hf : req.file = none) :
    pi_capture req env w = (400, w) := by
  simp [pi_capture, hn, hf]

theorem pi_capture_emptyName {req : PiRequest} (env : IngestEnv) (w : World)
    {n : Int} (hn : pyInt (req.face_count.getD "0") = some n)
    {f : FilePart} (hf : req.file = some f) (he : f.filename = "") :
    pi_capture req env w = (400, w) := by
  simp [pi_capture, hn, hf, he]

theorem pi_capture_saveFail {req : PiRequest} (env : IngestEnv) (w : World)
    {n : Int} (hn : pyInt (req.face_count.getD "0") = some n)
    {f : FilePart} (hf : req.file = some f) (he : ¬ f.filename = "")
    (hs : env.eff.saveFails = true) :
    pi_capture req env w = (500, w) := by
  simp [pi_capture, hn, hf, he, hs]

theorem pi_capture_insertFail {req : PiRequest} (env : IngestEnv) (w : World)
    {n : Int} (hn : pyInt (req.face_count.getD "0") = some n)
    {f : FilePart} (hf : req.file = some f) (he : ¬ f.filename = "")
    (hs : env.eff.saveFails = false) (hi : env.eff.insertFails = true) :
    pi_capture req env w
      = (500, { w with files := w.files ++ [(genFilename env, f.content)] }) := by
  simp [pi_capture, hn, hf, he, hs, hi, genFilename]

theorem pi_capture_ok {req : PiRequest} (env : IngestEnv) (w : World)
    {n : Int} (hn : pyInt (req.face_count.getD "0") = some n)
    {f : FilePart} (hf : req.file = some f) (he : ¬ f.filename = "")
    (hs : env.eff.saveFails = false) (hi : env.eff.insertFails = false) :
    pi_capture req env w
      = (201, { files := w.files ++ [(genFilename env, f.content)],
                events := w.events ++ [genEvent req env n],
                feed := genFeed req env n w.feed }) := by
  simp [pi_capture, hn, hf, he, hs, hi, genFilename, genEvent, genFeed]

/-- An image path built by the endpoint is never the empty string, so the
activity entry always carries its `image` key. -/
theorem image_path_ne_empty (s : String) : ¬("images/" ++ s) = "" := by
  intro h
  have hlen := congrArg String.length h
  have h7 : ("images/" : String).length = 7 := rfl
  simp [String.length_append, h7] at hlen

/-- Parsing the stringified boolean the capture client sends recovers the
boolean. -/
theorem parse_bool_string (b : Bool) :
    parseFacesDetected (some (if b then "true" else "false")) = b := by
  cases b <;> decide

/-- Empty world and failure-free environments for concrete instances. -/
def emptyWorld : World := ⟨[], [], []⟩

def envNoFail : IngestEnv := ⟨"TS", "NOW", ⟨false, false, false⟩⟩

def envFeedFail : IngestEnv := ⟨"TS", "NOW", ⟨false, false, true⟩⟩

/-- C1 counterexample to the claim as stated: a file part with a
non-empty filename and zero-byte content is not rejected — it yields 201,
a stored (empty) file and an event-log row; and a request with no file
part but an unparseable `face_count` yields 500, not 400 (the `int`
coercion runs before the file checks). -/
theorem ingest_empty_payload_counterexample :
    ((pi_capture ⟨some "T", none, none, none, some ⟨"x.jpg", []⟩⟩
        envNoFail emptyWorld).1 = 201
     ∧ (pi_capture ⟨some "T", none, none, none, some ⟨"x.jpg", []⟩⟩
        envNoFail emptyWorld).2.events.length = 1
     ∧ (pi_capture ⟨some "T", none, none, none, some ⟨"x.jpg", []⟩⟩
        envNoFail emptyWorld).2.files = [("pi_capture_TS.jpg", [])])
    ∧ pi_capture ⟨some "T", none, none, some "abc", none⟩
        envNoFail emptyWorld = (500, emptyWorld) := by
  decide

/-- C1 (amended): a request whose file part is missing or whose filename
is empty causes no state change, and its status is pinned exactly: HTTP
400 when the `face_count` field (default `"0"`) parses as an integer,
HTTP 500 when it does not — the `int` coercion runs before the file
checks, so in every such request an unparseable `face_count` surfaces as
a 500, never a 400.  (Zero-byte content is not checked; see the
counterexample.) -/
theorem ingest_missing_file_client_error (req : PiRequest)
    (env : IngestEnv) (w : World)
    (h : req.file = none ∨ ∃ f, req.file = some f ∧ f.filename = "") :
    pi_capture req env w
      = (if (pyInt (req.face_count.getD "0")).isSome then 400 else 500, w) := by
  cases hfc : pyInt (req.face_count.getD "0") with
  | none =>
    simp only [Option.isSome_none, Bool.false_eq_true, if_false]
    exact pi_capture_badInt env w hfc
  | some n =>
    simp only [Option.isSome_some, if_true]
    rcases h with hf | ⟨f, hf, he⟩
    · exact pi_capture_noFile env w hfc hf
    · exact pi_capture_emptyName env w hfc hf he

/-- Witness for C1 (amended) at a request with no file part and an
unparseable `face_count`, exercising the 500 branch. -/
theorem ingest_missing_file_client_error_witness :
    ((⟨none, none, none, some "abc", none⟩ : PiRequest).file = none
      ∨ ∃ f, (⟨none, none, none, some "abc", none⟩ : PiRequest).file = some f
          ∧ f.filename = "")
    ∧ pi_capture ⟨none, none, none, some "abc", none⟩ envNoFail emptyWorld
        = (if (pyInt (((⟨none, none, none, some "abc", none⟩ : PiRequest).face_count).getD "0")).isSome
            then 400 else 500,
           emptyWorld) :=
  ⟨Or.inl rfl,
   ingest_missing_file_client_error ⟨none, none, none, some "abc", none⟩
     envNoFail emptyWorld (Or.inl rfl)⟩

/-- C2 counterexample to the claim as stated: (a) a successful (201)
POST carrying `faces_detected=false` and `face_count=5` stores a row with
`faces_detected = false` and `face_count = 5` — nothing forces the
convention on arbitrary senders; (b) when the activity-feed write fails,
the endpoint still returns 201 although no ActivityEntry was appended. -/
theorem ingest_convention_counterexample :
    ((pi_capture ⟨some "T", none, some "false", some "5", some ⟨"a.jpg", [1]⟩⟩
        envNoFail emptyWorld).1 = 201
     ∧ (pi_capture ⟨some "T", none, some "false", some "5", some ⟨"a.jpg", [1]⟩⟩
        envNoFail emptyWorld).2.events.map
          (fun e => (e.faces_detected, e.face_count)) = [(false, 5)])
    ∧ ((pi_capture ⟨some "T", none, some "true", some "2", some ⟨"b.jpg", [2]⟩⟩
        envFeedFail emptyWorld).1 = 201
       ∧ (pi_capture ⟨some "T", none, some "true", some "2", some ⟨"b.jpg", [2]⟩⟩
        envFeedFail emptyWorld).2.feed = []) := by
  decide

/-- C2 (amended): every 201 response inserts exactly one event row (with
the parsed flag and the posted count) and stores exactly one file; it
appends exactly one activity entry provided the feed write did not fail
(a failed feed write is swallowed, 201 is still returned); and for
requests built by the capture client (`send_to_backend`), the row's
`face_count` is 0 whenever its `faces_detected` is false. -/
theorem ingest_201_unique_row_and_entry (req : PiRequest)
    (env : IngestEnv) (w w' : World)
    (h : pi_capture req env w = (201, w')) :
    (∃ ev, w'.events = w.events ++ [ev]
       ∧ ev.faces_detected = parseFacesDetected req.faces_detected
       ∧ some ev.face_count = pyInt (req.face_count.getD "0"))
    ∧ (env.eff.feedWriteFails = false → ∃ e, w'.feed = feed_append e w.feed)
    ∧ (∃ nm c, w'.files = w.files ++ [(nm, c)])
    ∧ (∀ cv p ts c, req = buildPiRequest cv p ts c →
        ∀ ev, w'.events = w.events ++ [ev] → ev.faces_detected = false →
          ev.face_count = 0) := by
  cases hfc : pyInt (req.face_count.getD "0") with
  | none =>
    rw [pi_capture_badInt env w hfc] at h
    simp at h
  | some n =>
    cases hf : req.file with
    | none =>
      rw [pi_capture_noFile env w hfc hf] at h
      simp at h
    | some f =>
      by_cases he : f.filename = ""
      · rw [pi_capture_emptyName env w hfc hf he] at h
        simp at h
      · cases hs : env.eff.saveFails with
        | true =>
          rw [pi_capture_saveFail env w hfc hf he hs] at h
          simp at h
        | false =>
          cases hi : env.eff.insertFails with
          | true =>
            rw [pi_capture_insertFail env w hfc hf he hs hi] at h
            simp at h
          | false =>
            rw [pi_capture_ok env w hfc hf he hs hi] at h
            have hw : w' = { files := w.files ++ [(genFilename env, f.content)],
                             events := w.events ++ [genEvent req env n],
                             feed := genFeed req env n w.feed } := by
              have h2 := (Prod.mk.injEq _ _ _ _).mp h
              exact h2.2.symm
            subst hw
            refine ⟨⟨genEvent req env n, rfl, rfl,
              by simp [genEvent, hfc]⟩, ?_, ?_, ?_⟩
            · intro hff
              by_cases hfd : parseFacesDetected req.faces_detected <;>
                · simp [genFeed, log_activity, hfd, hff,
                    image_path_ne_empty (genFilename env)]
                  exact ⟨_, rfl⟩
            · exact ⟨genFilename env, f.content, rfl⟩
            · intro cv p ts c hreq ev hev hfdev
              have hev' : ev = genEvent req env n := by
                have := List.append_cancel_left hev.symm
                simpa using this
              subst hev'
              subst hreq
              have hflag : parseFacesDetected
                  (buildPiRequest cv p ts c).faces_detected
                    = has_faces cv p := by
                show parseFacesDetected
                  (some (if has_faces cv p then "true" else "false"))
                    = has_faces cv p
                exact parse_bool_string (has_faces cv p)
              have hfalse : has_faces cv p = false := by
                rw [← hflag]
                exact hfdev
              have hfcv : pyInt
                  ((buildPiRequest cv p ts c).face_count.getD "0")
                    = some 0 := by
                show pyInt (toString
                  (if has_faces cv p then get_face_count cv p else 0)) = some 0
                have h0 : (if has_faces cv p then get_face_count cv p else 0) = 0 := by
                  simp [hfalse]
                rw [h0]
                decide
              have : some n = some (0 : Int) := hfc ▸ hfcv
              show (genEvent (buildPiRequest cv p ts c) env n).face_count = 0
              simpa [genEvent] using this

/-- Witness for C2 (amended) at a concrete successful request. -/
theorem ingest_201_unique_row_and_entry_witness :
    pi_capture ⟨some "T", some "pi", some "true", some "3", some ⟨"c.jpg", [7]⟩⟩
        envNoFail emptyWorld
      = (201, (pi_capture ⟨some "T", some "pi", some "true", some "3", some ⟨"c.jpg", [7]⟩⟩
          envNoFail emptyWorld).2)
    ∧ ((∃ ev, (pi_capture ⟨some "T", some "pi", some "true", some "3", some ⟨"c.jpg", [7]⟩⟩
          envNoFail emptyWorld).2.events = emptyWorld.events ++ [ev]
         ∧ ev.faces_detected = parseFacesDetected (some "true")
         ∧ some ev.face_count = pyInt ((some "3").getD "0"))
      ∧ (envNoFail.eff.feedWriteFails = false →
          ∃ e, (pi_capture ⟨some "T", some "pi", some "true", some "3", some ⟨"c.jpg", [7]⟩⟩
            envNoFail emptyWorld).2.feed = feed_append e emptyWorld.feed)
      ∧ (∃ nm c, (pi_capture ⟨some "T", some "pi", some "true", some "3", some ⟨"c.jpg", [7]⟩⟩
          envNoFail emptyWorld).2.files = emptyWorld.files ++ [(nm, c)])
      ∧ (∀ cv p ts c,
          (⟨some "T", some "pi", some "true", some "3", some ⟨"c.jpg", [7]⟩⟩ : PiRequest)
            = buildPiRequest cv p ts c →
          ∀ ev, (pi_capture ⟨some "T", some "pi", some "true", some "3", some ⟨"c.jpg", [7]⟩⟩
            envNoFail emptyWorld).2.events = emptyWorld.events ++ [ev] →
            ev.faces_detected = false → ev.face_count = 0)) :=
  ⟨by decide,
   ingest_201_unique_row_and_entry
     ⟨some "T", some "pi", some "true", some "3", some ⟨"c.jpg", [7]⟩⟩
     envNoFail emptyWorld _ (by decide)⟩

/-- C3 counterexample to the claim as stated: when the last step (the
activity append) fails, the endpoint does NOT return HTTP 500 — the
failure is swallowed inside `log_activity` and the response is still 201,
with the file and the row persisted but no activity entry. -/
theorem ingest_late_failure_counterexample :
    envFeedFail.eff.feedWriteFails = true
    ∧ (pi_capture ⟨some "T", none, some "true", some "1", some ⟨"d.jpg", [3]⟩⟩
        envFeedFail emptyWorld).1 = 201
    ∧ (pi_capture ⟨some "T", none, some "true", some "1", some ⟨"d.jpg", [3]⟩⟩
        envFeedFail emptyWorld).2.feed = []
    ∧ (pi_capture ⟨some "T", none, some "true", some "1", some ⟨"d.jpg", [3]⟩⟩
        envFeedFail emptyWorld).2.events.length = 1
    ∧ (pi_capture ⟨some "T", none, some "true", some "1", some ⟨"d.jpg", [3]⟩⟩
        envFeedFail emptyWorld).2.files.length = 1 := by
  decide

/-- C3 (amended): the side effects happen in the order write-file,
insert-row, append-activity (variant chosen by the reported
`faces_detected`); a failing file write returns 500 with nothing
persisted; a failing insert returns 500 with the written file kept, so a
stored image can exist with no event-log row; a failing activity append
is swallowed — the endpoint still returns 201 with the file and row
persisted and the feed unchanged; with no failure the proper activity
variant is appended at the head. -/
theorem ingest_effect_order (req : PiRequest) (env : IngestEnv) (w : World)
    (f : FilePart) (hf : req.file = some f) (he : ¬ f.filename = "")
    (n : Int) (hn : pyInt (req.face_count.getD "0") = some n) :
    (env.eff.saveFails = true → pi_capture req env w = (500, w))
    ∧ (env.eff.saveFails = false → env.eff.insertFails = true →
        pi_capture req env w
          = (500, { w with files := w.files ++ [(genFilename env, f.content)] }))
    ∧ (env.eff.saveFails = false → env.eff.insertFails = false →
        pi_capture req env w
          = (201, { files := w.files ++ [(genFilename env, f.content)],
                    events := w.events ++ [genEvent req env n],
                    feed := genFeed req env n w.feed })
        ∧ (env.eff.feedWriteFails = true → genFeed req env n w.feed = w.feed)
        ∧ (env.eff.feedWriteFails = false →
            genFeed req env n w.feed
              = feed_append
                  (if parseFacesDetected req.faces_detected then
                    ⟨"face_detected",
                     "Face detected: " ++ toString n ++ " faces in image",
                     env.nowIso, some ("images/" ++ genFilename env)⟩
                  else
                    ⟨"image_captured",
                     "Image captured from " ++ req.source.getD "raspberry_pi",
                     env.nowIso, some ("images/" ++ genFilename env)⟩)
                  w.feed)) := by
  refine ⟨?_, ?_, ?_⟩
  · intro hs
    exact pi_capture_saveFail env w hn hf he hs
  · intro hs hi
    exact pi_capture_insertFail env w hn hf he hs hi
  · intro hs hi
    refine ⟨pi_capture_ok env w hn hf he hs hi, ?_, ?_⟩
    · intro hff
      by_cases hfd : parseFacesDetected req.faces_detected <;>
        simp [genFeed, log_activity, hfd, hff]
    · intro hff
      by_cases hfd : parseFacesDetected req.faces_detected <;>
        simp [genFeed, log_activity, hfd, hff,
          image_path_ne_empty (genFilename env)]

/-- Witness for C3 (amended) at a concrete request whose flags all
succeed, instantiating every branch of the conclusion. -/
theorem ingest_effect_order_witness :
    ((⟨some "T", none, some "false", some "2", some ⟨"e.jpg", [9]⟩⟩ : PiRequest).file
      = some ⟨"e.jpg", [9]⟩)
    ∧ (¬ (⟨"e.jpg", [9]⟩ : FilePart).filename = "")
    ∧ pyInt (((⟨some "T", none, some "false", some "2", some ⟨"e.jpg", [9]⟩⟩ : PiRequest).face_count).getD "0") = some 2
    ∧ ((envNoFail.eff.saveFails = true →
        pi_capture ⟨some "T", none, some "false", some "2", some ⟨"e.jpg", [9]⟩⟩
          envNoFail emptyWorld = (500, emptyWorld))
      ∧ (envNoFail.eff.saveFails = false → envNoFail.eff.insertFails = true →
          pi_capture ⟨some "T", none, some "false", some "2", some ⟨"e.jpg", [9]⟩⟩
            envNoFail emptyWorld
            = (500, { emptyWorld with
                files := emptyWorld.files ++ [(genFilename envNoFail, [9])] }))
      ∧ (envNoFail.eff.saveFails = false → envNoFail.eff.insertFails = false →
          pi_capture ⟨some "T", none, some "false", some "2", some ⟨"e.jpg", [9]⟩⟩
            envNoFail emptyWorld
            = (201, { files := emptyWorld.files ++ [(genFilename envNoFail, [9])],
                      events := emptyWorld.events
                        ++ [genEvent ⟨some "T", none, some "false", some "2", some ⟨"e.jpg", [9]⟩⟩ envNoFail 2],
                      feed := genFeed ⟨some "T", none, some "false", some "2", some ⟨"e.jpg", [9]⟩⟩ envNoFail 2 emptyWorld.feed })
          ∧ (envNoFail.eff.feedWriteFails = true →
              genFeed ⟨some "T", none, some "false", some "2", some ⟨"e.jpg", [9]⟩⟩ envNoFail 2 emptyWorld.feed
                = emptyWorld.feed)
          ∧ (envNoFail.eff.feedWriteFails = false →
              genFeed ⟨some "T", none, some "false", some "2", some ⟨"e.jpg", [9]⟩⟩ envNoFail 2 emptyWorld.feed
                = feed_append
                    (if parseFacesDetected
                        ((⟨some "T", none, some "false", some "2", some ⟨"e.jpg", [9]⟩⟩ : PiRequest).faces_detected) then
                      ⟨"face_detected",
                       "Face detected: " ++ toString (2 : Int) ++ " faces in image",
                       envNoFail.nowIso, some ("images/" ++ genFilename envNoFail)⟩
                    else
                      ⟨"image_captured",
                       "Image captured from "
                         ++ ((⟨some "T", none, some "false", some "2", some ⟨"e.jpg", [9]⟩⟩ : PiRequest).source).getD "raspberry_pi",
                       envNoFail.nowIso, some ("images/" ++ genFilename envNoFail)⟩)
                    emptyWorld.feed))) :=
  ⟨rfl, by decide, by decide,
   ingest_effect_order ⟨some "T", none, some "false", some "2", some ⟨"e.jpg", [9]⟩⟩
     envNoFail emptyWorld ⟨"e.jpg", [9]⟩ rfl (by decide) 2 (by decide)⟩

/-- The per-entry fields of a response that involve no clock at all:
everything except the derived `time_ago` and the possibly-substituted
`timestamp`. -/
def stableFields (e : EnrichedEntry) : String × String × Option String :=
  (e.type, e.description, e.image)

/-- A concrete stored feed: one snapshot entry stamped at the epoch. -/
def sampleStored : Option StoredJson :=
  some (.arr [⟨"snapshot", "Snapshot saved", "1970-01-01T00:00:00Z", none⟩])

/-- A faithful ISO-8601 parser fragment: `fromisoformat` (after the `Z`
rewrite) maps `1970-01-01T00:00:00+00:00` to epoch second 0 and raises
on anything else this development feeds it. -/
def epochParse (s : String) : Option Int :=
  if s = "1970-01-01T00:00:00Z" then some 0 else none

/-- The read environment 59 seconds after the epoch. -/
def readEnvEarly : ReadEnv := ⟨59, "1970-01-01T00:00:59Z", epochParse⟩

/-- The read environment 61 seconds after the epoch. -/
def readEnvLate : ReadEnv := ⟨61, "1970-01-01T00:01:01Z", epochParse⟩

/-- C7 counterexample to the claim as stated: the same feed state — one
entry stamped `1970-01-01T00:00:00Z` — read twice with no intervening
write, at clocks 59s and 61s past the epoch with the genuine parse of
that timestamp (epoch second 0), yields lists differing in the derived
`time_ago` field ("59s ago" vs "1m ago"), so consecutive reads are not
always identical including `time_ago`. -/
theorem activity_log_read_counterexample :
    activity_log_read sampleStored readEnvEarly
      ≠ activity_log_read sampleStored readEnvLate := by
  decide

/-- C7 (amended): for every feed state, two reads of `/activity_log`
with no intervening writes return lists of the same entries in the same
order, always agreeing in `type`, `description` and `image`; agreeing
also in `timestamp` whenever every stored entry carries one (an entry
without a timestamp has the read-time clock string substituted, which
may differ between reads); only the read-time-derived `time_ago` (and
such substituted timestamps) can vary, and two reads at the same clock
instant are fully identical. -/
theorem activity_log_read_stable (stored : Option StoredJson)
    (env₁ env₂ : ReadEnv) :
    (activity_log_read stored env₁).map stableFields
      = (activity_log_read stored env₂).map stableFields
    ∧ ((∀ a ∈ load_activities stored, ¬ a.timestamp = "") →
        (activity_log_read stored env₁).map stripTimeAgo
          = (activity_log_read stored env₂).map stripTimeAgo)
    ∧ (env₁ = env₂ →
        activity_log_read stored env₁ = activity_log_read stored env₂) := by
  refine ⟨?_, ?_, ?_⟩
  · unfold activity_log_read
    rw [List.map_map, List.map_map]
    apply List.map_congr_left
    intro a _
    rfl
  · intro h
    unfold activity_log_read
    rw [List.map_map, List.map_map]
    apply List.map_congr_left
    intro a ha
    have hts : ¬ a.timestamp = "" := h a (List.mem_of_mem_take ha)
    simp [stripTimeAgo, enrich, hts]
  · intro hEnv
    rw [hEnv]

/-- Witness for C7 (amended) at a concrete stored feed and two distinct
read times, with the timestamp-presence condition discharged by
computation. -/
theorem activity_log_read_stable_witness :
    ((activity_log_read sampleStored readEnvEarly).map stableFields
      = (activity_log_read sampleStored readEnvLate).map stableFields
     ∧ ((∀ a ∈ load_activities sampleStored, ¬ a.timestamp = "") →
         (activity_log_read sampleStored readEnvEarly).map stripTimeAgo
           = (activity_log_read sampleStored readEnvLate).map stripTimeAgo)
     ∧ (readEnvEarly = readEnvLate →
         activity_log_read sampleStored readEnvEarly
           = activity_log_read sampleStored readEnvLate))
    ∧ (∀ a ∈ load_activities sampleStored, ¬ a.timestamp = "")
    ∧ (activity_log_read sampleStored readEnvEarly).map stripTimeAgo
        = (activity_log_read sampleStored readEnvLate).map stripTimeAgo :=
  ⟨activity_log_read_stable sampleStored readEnvEarly readEnvLate,
   by intro a ha; fin_cases ha; decide,
   (activity_log_read_stable sampleStored readEnvEarly readEnvLate).2.1
     (by intro a ha; fin_cases ha; decide)⟩

end IdentifAI
